import Mathlib

/-!
Verification development for the stress-test orchestration code in
`src/test_os/test_os/src/stress_test.rs`.

The Rust source is shallowly embedded: `f32`/`f64` values are modelled as
exact rationals (`ℚ`), `u64` as `ℕ` with explicit reduction modulo `2 ^ 64`
where overflow matters, and a panicking `assert!` as a `hard` outcome of the
check.  Randomized or platform-supplied inputs (metrics provider contents,
battery simulation values) become explicit parameters.
-/

/-- Compilation targets of the source (`#![cfg(any(target_os = "android", target_os = "ios"))]`). -/
inductive Platform where
  | android
  | ios
  deriving DecidableEq

/-- Rust struct `SystemMetrics` (stress_test.rs lines 16-26).  `f32` fields are
modelled as `ℚ`, `u64` as `ℕ`; `uptime` and `timestamp` are abstract ticks. -/
structure SystemMetrics where
  cpu_usage : ℚ
  memory_used : ℕ
  memory_total : ℕ
  battery_level : ℚ
  battery_temperature : ℚ
  thermal_throttling : Bool
  uptime : ℕ
  timestamp : ℕ
  deriving DecidableEq

/-- Rust struct `StressTestConfig` (stress_test.rs lines 28-39). -/
structure StressTestConfig where
  test_duration : ℕ
  max_cpu_usage : ℚ
  max_memory_mb : ℕ
  max_threads : ℕ
  max_file_size_mb : ℕ
  max_open_files : ℕ
  max_battery_drain_percent : ℚ
  max_temperature_celsius : ℚ
  enable_throttling_protection : Bool
  deriving DecidableEq

/-- Rust impl `Default for StressTestConfig` (stress_test.rs lines 41-55); the
`cfg!(target_os = "android")` branches become a match on the platform. -/
def default_config (p : Platform) : StressTestConfig :=
  { test_duration := 60
  , max_cpu_usage := match p with | Platform.android => 60 | Platform.ios => 50
  , max_memory_mb := match p with | Platform.android => 200 | Platform.ios => 150
  , max_threads := match p with | Platform.android => 50 | Platform.ios => 30
  , max_file_size_mb := match p with | Platform.android => 100 | Platform.ios => 50
  , max_open_files := match p with | Platform.android => 200 | Platform.ios => 100
  , max_battery_drain_percent := 1/2
  , max_temperature_celsius := 45
  , enable_throttling_protection := true }

/-- Metric checked by one of the three asserts of `check_limits`. -/
inductive MetricName where
  | cpu
  | memory
  | temperature
  deriving DecidableEq

/-- Violation datum carried by a failing limit check (metric, observed value,
hard threshold), reconstructed from the panic messages of `check_limits`. -/
structure ViolationRecord where
  metric : MetricName
  observed : ℚ
  threshold : ℚ
  deriving DecidableEq

/-- Outcome of the limit check.  The source's `check_limits` (stress_test.rs
lines 809-831) either panics on a failed `assert!` (modelled as `hard`) or
returns normally (`ok`); the `soft` constructor is included so that the
spec's soft-violation policy can be stated about this code at all. -/
inductive CheckOutcome where
  | ok
  | soft (r : ViolationRecord)
  | hard (r : ViolationRecord)
  deriving DecidableEq

/-- True exactly on the `hard` outcome. -/
def CheckOutcome.isHard : CheckOutcome → Bool
  | CheckOutcome.hard _ => true
  | _ => false

/-- Source expression `metrics.memory_used as f64 / 1024.0 / 1024.0`
(stress_test.rs line 817), exact over `ℚ`. -/
def memory_used_mb (m : SystemMetrics) : ℚ :=
  (m.memory_used : ℚ) / 1024 / 1024

/-- Failing condition of the first assert of `check_limits`
(stress_test.rs lines 810-815): `cpu_usage <= max_cpu_usage * 1.5` is violated. -/
def cpu_branch_fails (m : SystemMetrics) (c : StressTestConfig) : Bool :=
  decide (m.cpu_usage > c.max_cpu_usage * (3/2 : ℚ))

/-- Failing condition of the second assert of `check_limits`
(stress_test.rs lines 817-823): `memory_mb <= max_memory_mb as f64 * 1.5` is violated. -/
def memory_branch_fails (m : SystemMetrics) (c : StressTestConfig) : Bool :=
  decide (memory_used_mb m > (c.max_memory_mb : ℚ) * (3/2 : ℚ))

/-- Failing condition of the third assert of `check_limits`
(stress_test.rs lines 825-830): `battery_temperature <= max_temperature_celsius * 1.2` is violated. -/
def temperature_branch_fails (m : SystemMetrics) (c : StressTestConfig) : Bool :=
  decide (m.battery_temperature > c.max_temperature_celsius * (6/5 : ℚ))

/-- Rust fn `check_limits` (stress_test.rs lines 809-831): three `assert!`
statements evaluated in order; the first failing one panics (`hard`), and if
none fails the function returns (`ok`).  No soft outcome exists in the source. -/
def check_limits (m : SystemMetrics) (c : StressTestConfig) : CheckOutcome :=
  if cpu_branch_fails m c then
    CheckOutcome.hard ⟨MetricName.cpu, m.cpu_usage, c.max_cpu_usage * (3/2 : ℚ)⟩
  else if memory_branch_fails m c then
    CheckOutcome.hard ⟨MetricName.memory, memory_used_mb m, (c.max_memory_mb : ℚ) * (3/2 : ℚ)⟩
  else if temperature_branch_fails m c then
    CheckOutcome.hard ⟨MetricName.temperature, m.battery_temperature, c.max_temperature_celsius * (6/5 : ℚ)⟩
  else
    CheckOutcome.ok

/-- Rust fn `get_cpu_usage` (stress_test.rs lines 712-725).  On Android the
function reads `/proc/stat` into a string and then ignores it, returning the
constant `50.0`; on iOS it returns the constant `45.0`.  The `proc_stat`
parameter is the content read on Android; it does not influence the result. -/
def get_cpu_usage (p : Platform) (proc_stat : String) : ℚ :=
  match p with
  | Platform.android => 50
  | Platform.ios => 45

/-- Splitting a character list at the characters satisfying `p`, keeping empty
pieces (the character-level meaning of Rust's `split`). -/
def split_when (p : Char → Bool) : List Char → List (List Char)
  | [] => [[]]
  | c :: rest =>
    match split_when p rest with
    | [] => [[c]]
    | cur :: parts => if p c then [] :: cur :: parts else (c :: cur) :: parts

/-- Decimal digit accumulator underlying the `u64` parse: `none` on the first
non-digit character. -/
def parse_nat_digits (acc : ℕ) : List Char → Option ℕ
  | [] => some acc
  | c :: rest =>
    if c.isDigit then parse_nat_digits (acc * 10 + (c.toNat - 48)) rest else none

/-- Rust `val.parse::<u64>().unwrap_or(0)`: a decimal `u64` parse accepting an
optional single leading `+` sign, whose failure (empty digits, non-numeric
text, or overflow past `2 ^ 64 - 1`) yields `0`. -/
def parse_u64 (cs : List Char) : ℕ :=
  let ds := match cs with
    | c :: rest => if c = '+' then rest else cs
    | [] => cs
  match parse_nat_digits 0 ds with
  | some n => if n < 2 ^ 64 then n else 0
  | none => 0

/-- Rust `char::is_whitespace`: the Unicode `White_Space` property
(U+0009-U+000D, U+0020, U+0085, U+00A0, U+1680, U+2000-U+200A, U+2028,
U+2029, U+202F, U+205F, U+3000). -/
def rust_is_whitespace (c : Char) : Bool :=
  let n := c.toNat
  (9 ≤ n && n ≤ 13) || n = 32 || n = 133 || n = 160 || n = 5760 ||
    (8192 ≤ n && n ≤ 8202) || n = 8232 || n = 8233 || n = 8239 || n = 8287 || n = 12288

/-- Rust `line.split_whitespace()`: the non-empty maximal runs of characters
that are not Unicode whitespace. -/
def whitespace_tokens (line : List Char) : List (List Char) :=
  (split_when rust_is_whitespace line).filter fun t => !t.isEmpty

/-- Loop body of `get_memory_used` on Android (stress_test.rs lines 730-738):
scan the lines of `/proc/meminfo`; on the first line starting with
`MemAvailable:` that has a second whitespace token, return that token parsed
as `u64` (`unwrap_or(0)`); otherwise keep scanning. -/
def find_mem_available : List (List Char) → Option ℕ
  | [] => none
  | line :: rest =>
    if List.isPrefixOf "MemAvailable:".data line then
      match (whitespace_tokens line).get? 1 with
      | some v => some (parse_u64 v)
      | none => find_mem_available rest
    else
      find_mem_available rest

/-- The `MemAvailable` value in kB extracted from a `/proc/meminfo` content,
as `get_memory_used` extracts it (`info.lines()` modelled as splitting the
content on newline characters). -/
def mem_available_kb (info : String) : Option ℕ :=
  find_mem_available (split_when (fun c => c = Char.ofNat 10) info.data)

/-- Size of the `u64` value space; `u64` arithmetic is reduced modulo it. -/
def U64_SIZE : ℕ := 2 ^ 64

/-- Rust fn `get_memory_used` (stress_test.rs lines 727-750).  On Android the
parsed `MemAvailable` value (kB) is multiplied by 1024; any other path — iOS
(whose `extern` block is dead code), a meminfo content without a usable
`MemAvailable` line — falls through to the constant `512 * 1024 * 1024`. -/
def get_memory_used (p : Platform) (meminfo : String) : ℕ :=
  match p with
  | Platform.android =>
    match mem_available_kb meminfo with
    | some kb => kb * 1024 % U64_SIZE
    | none => 512 * 1024 * 1024
  | Platform.ios => 512 * 1024 * 1024

/-- Rust fn `get_memory_total` (stress_test.rs lines 752-758): 4 GiB on
Android, 3 GiB otherwise. -/
def get_memory_total (p : Platform) : ℕ :=
  match p with
  | Platform.android => 4 * 1024 * 1024 * 1024
  | Platform.ios => 3 * 1024 * 1024 * 1024

/-- Rust fn `collect_system_metrics` (stress_test.rs lines 699-710).  The
platform-file contents (`/proc/stat`, `/proc/meminfo`) and the randomized
battery/throttling/uptime values produced by the simulate functions are
explicit parameters. -/
def collect_system_metrics (p : Platform) (proc_stat meminfo : String)
    (battery_level battery_temperature : ℚ) (throttling : Bool)
    (uptime timestamp : ℕ) : SystemMetrics :=
  { cpu_usage := get_cpu_usage p proc_stat
  , memory_used := get_memory_used p meminfo
  , memory_total := get_memory_total p
  , battery_level := battery_level
  , battery_temperature := battery_temperature
  , thermal_throttling := throttling
  , uptime := uptime
  , timestamp := timestamp }

/-- Verdict printed by `generate_comprehensive_report`. -/
inductive Verdict where
  | passed
  | failed
  deriving DecidableEq

/-- Per-sample predicate of the `healthy` computation in
`generate_comprehensive_report` (stress_test.rs line 1047):
`!m.thermal_throttling || m.battery_temperature < 45.0`. -/
def healthy_sample (m : SystemMetrics) : Bool :=
  !m.thermal_throttling || decide (m.battery_temperature < 45)

/-- Rust fn `generate_comprehensive_report` (stress_test.rs lines 1013-1051),
restricted to the one decision it makes: on an empty history it returns early
printing no overall status (`none`); otherwise the printed status is PASSED
exactly when every sample is `healthy_sample`. -/
def report_verdict (ms : List SystemMetrics) : Option Verdict :=
  if ms.isEmpty then none
  else some (if ms.all healthy_sample then Verdict.passed else Verdict.failed)

/-- Initial value of the shared stop flag, `AtomicBool::new(false)`
(stress_test.rs lines 63 and 612). -/
def initial_stop_flag : Bool := false

/-- Observable end state of `test_comprehensive_system_stress`
(stress_test.rs lines 607-697): the collected history, the sequence of values
stored into the stop flag, the flag's final value, whether the worker handles
were joined, and the report verdict if the report was produced. -/
structure RunResult where
  history : List SystemMetrics
  flag_writes : List Bool
  stop_flag : Bool
  workers_joined : Bool
  verdict : Option Verdict
  deriving DecidableEq

/-- Monitor loop of `test_comprehensive_system_stress` (stress_test.rs lines
672-695): each iteration appends the collected sample to the history and runs
`check_limits`; a failed assert panics out of the test, so the stores to the
stop flag (line 688), the joins (lines 690-692) and the report (line 694) are
skipped.  On normal completion the flag is stored `true` once, all handles
are joined and the report is generated from the history. -/
def run_comprehensive (c : StressTestConfig) :
    List SystemMetrics → List SystemMetrics → RunResult
  | [], hist =>
    { history := hist, flag_writes := [true], stop_flag := true
    , workers_joined := true, verdict := report_verdict hist }
  | m :: rest, hist =>
    if (check_limits m c).isHard then
      { history := hist ++ [m], flag_writes := [], stop_flag := false
      , workers_joined := false, verdict := none }
    else
      run_comprehensive c rest (hist ++ [m])

/-- Whether some sample of the run fails a hard bound of `check_limits`. -/
def encounters_hard (c : StressTestConfig) (samples : List SystemMetrics) : Bool :=
  samples.any fun m => (check_limits m c).isHard

/-- Number of workload closures in `test_cpu_multi_threading_stress`
(stress_test.rs lines 69-134): the `workloads` vector has five entries. -/
def cpu_workload_count : ℕ := 5

/-- Threads spawned per workload by the nested loops of
`test_cpu_multi_threading_stress` (stress_test.rs lines 136-145): each of the
`n` workloads gets `max_threads / n` threads (integer division); descriptor
weights do not exist in the source. -/
def thread_counts (max_threads n : ℕ) : List ℕ :=
  List.replicate n (max_threads / n)

/-- Total number of workload threads spawned. -/
def total_spawned (max_threads n : ℕ) : ℕ :=
  (thread_counts max_threads n).sum

/-- Ways `test_cpu_multi_threading_stress` can end.  The source has no
configuration validation, so `configError` exists only to state the spec's
fail-fast claim; it is never produced. -/
inductive CpuOutcome where
  | configError
  | abortedHard
  | completed
  deriving DecidableEq

/-- Observable end state of `test_cpu_multi_threading_stress`. -/
structure CpuRunResult where
  threads_spawned : ℕ
  flag_writes : List Bool
  stop_flag : Bool
  workers_joined : Bool
  outcome : CpuOutcome
  deriving DecidableEq

/-- Rust test `test_cpu_multi_threading_stress` (stress_test.rs lines 57-177):
threads are spawned unconditionally before the monitor loop; a hard
`check_limits` failure panics out of the loop before the stop-flag store
(line 168) and the joins (lines 170-172); otherwise the flag is stored `true`
once and every handle is joined. -/
def run_cpu_stress (c : StressTestConfig) (samples : List SystemMetrics) : CpuRunResult :=
  let spawned := total_spawned c.max_threads cpu_workload_count
  if encounters_hard c samples then
    { threads_spawned := spawned, flag_writes := [], stop_flag := false
    , workers_joined := false, outcome := CpuOutcome.abortedHard }
  else
    { threads_spawned := spawned, flag_writes := [true], stop_flag := true
    , workers_joined := true, outcome := CpuOutcome.completed }

/-- Observable end state of `test_filesystem_stress`
(stress_test.rs lines 254-399). -/
structure FsRunResult where
  stop_flag : Bool
  workers_joined : Bool
  dir_removed : Bool
  deriving DecidableEq

/-- One monitor tick of `test_filesystem_stress` (stress_test.rs lines
371-388) passes its two asserts when `open_files < max_open_files` and
`free_space > 50`; a tick is a pair (open-file count, free disk space MB). -/
def fs_tick_ok (c : StressTestConfig) (t : ℕ × ℕ) : Bool :=
  decide (t.1 < c.max_open_files) && decide (t.2 > 50)

/-- Monitor loop of `test_filesystem_stress`: a failed assert panics out of
the test, skipping the stop-flag store (line 390), the joins (lines 392-394)
and the scratch-directory removal (line 396); on normal completion all three
happen. -/
def run_filesystem (c : StressTestConfig) : List (ℕ × ℕ) → FsRunResult
  | [] => { stop_flag := true, workers_joined := true, dir_removed := true }
  | t :: rest =>
    if fs_tick_ok c t then
      run_filesystem c rest
    else
      { stop_flag := false, workers_joined := false, dir_removed := false }

/-- Effect of `fs::remove_dir_all(&test_dir).ok()` (stress_test.rs line 396)
on whether the scratch directory exists: the directory is gone afterwards and
a failure (directory already absent) is discarded by `.ok()`. -/
def remove_dir_all_ok (dir_exists : Bool) : Bool :=
  false

/-- Sample in the soft band of the default Android config: CPU 70% exceeds
`max_cpu_usage = 60` but stays at or below the hard bound 90; memory and
temperature are nominal. -/
def m_soft : SystemMetrics :=
  { cpu_usage := 70, memory_used := 0, memory_total := 4 * 1024 * 1024 * 1024
  , battery_level := 50, battery_temperature := 40, thermal_throttling := false
  , uptime := 0, timestamp := 0 }

/-- Sample violating the hard CPU bound of the default Android config
(200% > 90%), with all other fields nominal and no throttling. -/
def m_hard : SystemMetrics :=
  { cpu_usage := 200, memory_used := 0, memory_total := 4 * 1024 * 1024 * 1024
  , battery_level := 50, battery_temperature := 40, thermal_throttling := false
  , uptime := 0, timestamp := 0 }

/-- A `/proc/meminfo` content whose `MemAvailable` value (5 000 000 000 kB)
makes the derived `memory_used` exceed the hardcoded 4 GiB `memory_total`. -/
def bad_meminfo : String := "MemAvailable: 5000000000 kB"

/-- The same oversized `MemAvailable` value written with the leading `+` sign
that Rust's `u64` parse accepts. -/
def plus_meminfo : String := "MemAvailable: +5000000000 kB"

/-- A `/proc/meminfo` content with a modest `MemAvailable` value (1 GiB). -/
def ok_meminfo : String := "MemAvailable: 1048576 kB"

/-- Default Android config with `max_threads` lowered to 3, fewer than the
five workloads. -/
def cfg_three : StressTestConfig :=
  { default_config Platform.android with max_threads := 3 }

/-- Default Android config with `max_threads` set to zero. -/
def cfg_zero_threads : StressTestConfig :=
  { default_config Platform.android with max_threads := 0 }

/-- C1: the limit check raises a hard failure if and only if the sample exceeds
one of the three hard bounds (`max_cpu_usage * 1.5`, `max_memory_mb * 1.5` in
MB, `max_temperature_celsius * 1.2`); a sample at or below all three hard
bounds never triggers a hard failure. -/
theorem C1_hard_failure_iff (m : SystemMetrics) (c : StressTestConfig) :
    (check_limits m c).isHard = true ↔
      (m.cpu_usage > c.max_cpu_usage * (3/2 : ℚ) ∨
        memory_used_mb m > (c.max_memory_mb : ℚ) * (3/2 : ℚ) ∨
        m.battery_temperature > c.max_temperature_celsius * (6/5 : ℚ)) := by
  simp only [check_limits, cpu_branch_fails, memory_branch_fails, temperature_branch_fails]
  split_ifs with h1 h2 h3 <;>
    simp_all [CheckOutcome.isHard]

/-- C2 counterexample: `m_soft` exceeds the nominal CPU threshold of the
default Android config while staying within every hard bound, yet
`check_limits` returns plain `ok` — no soft violation is produced, so nothing
can be recorded or accumulated. -/
theorem C2_counterexample :
    (default_config Platform.android).max_cpu_usage < m_soft.cpu_usage ∧
    m_soft.cpu_usage ≤ (default_config Platform.android).max_cpu_usage * (3/2 : ℚ) ∧
    check_limits m_soft (default_config Platform.android) = CheckOutcome.ok ∧
    ¬ ∃ r, check_limits m_soft (default_config Platform.android) = CheckOutcome.soft r := by
  have hok : check_limits m_soft (default_config Platform.android) = CheckOutcome.ok := by
    norm_num [check_limits, cpu_branch_fails, memory_branch_fails, temperature_branch_fails,
      memory_used_mb, m_soft, default_config]
  refine ⟨by norm_num [default_config, m_soft], by norm_num [default_config, m_soft], hok, ?_⟩
  rintro ⟨r, hr⟩
  rw [hok] at hr
  exact CheckOutcome.noConfusion hr

/-- C2 amended: a sample that exceeds some nominal threshold but stays at or
below all three hard bounds passes `check_limits` with the plain `ok`
outcome — nothing is recorded, because the source has no soft-violation
mechanism — and the monitor loop continues past the sample without aborting. -/
theorem C2_soft_band_not_recorded (m : SystemMetrics) (c : StressTestConfig)
    (hband : c.max_cpu_usage < m.cpu_usage ∨
      (c.max_memory_mb : ℚ) < memory_used_mb m ∨
      c.max_temperature_celsius < m.battery_temperature)
    (hcpu : m.cpu_usage ≤ c.max_cpu_usage * (3/2 : ℚ))
    (hmem : memory_used_mb m ≤ (c.max_memory_mb : ℚ) * (3/2 : ℚ))
    (htemp : m.battery_temperature ≤ c.max_temperature_celsius * (6/5 : ℚ)) :
    check_limits m c = CheckOutcome.ok ∧
    ∀ rest hist, run_comprehensive c (m :: rest) hist = run_comprehensive c rest (hist ++ [m]) := by
  have hok : check_limits m c = CheckOutcome.ok := by
    simp [check_limits, cpu_branch_fails, memory_branch_fails, temperature_branch_fails,
      not_lt.mpr hcpu, not_lt.mpr hmem, not_lt.mpr htemp]
  refine ⟨hok, fun rest hist => ?_⟩
  simp [run_comprehensive, hok, CheckOutcome.isHard]

/-- Witness for C2's amended theorem at `m_soft` under the default Android
config. -/
theorem C2_soft_band_not_recorded_witness :
    (default_config Platform.android).max_cpu_usage < m_soft.cpu_usage ∧
    check_limits m_soft (default_config Platform.android) = CheckOutcome.ok ∧
    run_comprehensive (default_config Platform.android) [m_soft] [] =
      run_comprehensive (default_config Platform.android) [] [m_soft] := by
  have h := C2_soft_band_not_recorded m_soft (default_config Platform.android)
    (Or.inl (by norm_num [default_config, m_soft]))
    (by norm_num [default_config, m_soft])
    (by norm_num [default_config, m_soft, memory_used_mb])
    (by norm_num [default_config, m_soft])
  exact ⟨by norm_num [default_config, m_soft], h.1, by simpa using h.2 [] []⟩

/-- C3 counterexample: on a history containing the hard-violating sample
`m_hard`, the comprehensive run panics out of its monitor loop: the stop flag
is never stored, the workers are not joined and no report is produced —
contradicting the claimed stop/join/FAILED-report behavior. -/
theorem C3_counterexample :
    (check_limits m_hard (default_config Platform.android)).isHard = true ∧
    (run_comprehensive (default_config Platform.android) [m_hard] []).stop_flag = false ∧
    (run_comprehensive (default_config Platform.android) [m_hard] []).workers_joined = false ∧
    (run_comprehensive (default_config Platform.android) [m_hard] []).verdict = none := by
  have hhard : (check_limits m_hard (default_config Platform.android)).isHard = true := by
    norm_num [check_limits, cpu_branch_fails, m_hard, default_config, CheckOutcome.isHard]
  refine ⟨hhard, ?_, ?_, ?_⟩ <;> simp [run_comprehensive, hhard]

/-- C3 amended: whenever the limit check detects a hard violation on a sample
of the run, the run aborts immediately by panicking: the stop flag is never
written (so never set), the workload threads are not joined, and no final
report is produced. -/
theorem C3_hard_abort_behavior (c : StressTestConfig) (samples hist : List SystemMetrics)
    (h : encounters_hard c samples = true) :
    (run_comprehensive c samples hist).flag_writes = [] ∧
    (run_comprehensive c samples hist).stop_flag = false ∧
    (run_comprehensive c samples hist).workers_joined = false ∧
    (run_comprehensive c samples hist).verdict = none := by
  induction samples generalizing hist with
  | nil => simp [encounters_hard] at h
  | cons m rest ih =>
    by_cases hm : (check_limits m c).isHard = true
    · simp [run_comprehensive, hm]
    · have hrest : encounters_hard c rest = true := by
        simp only [encounters_hard, List.any_cons, Bool.or_eq_true] at h
        rcases h with h | h
        · exact absurd h hm
        · exact h
      simpa [run_comprehensive, hm] using ih (hist ++ [m]) hrest

/-- Witness for C3's amended theorem: the singleton history `[m_hard]` under
the default Android config encounters a hard violation and the run produces
no report. -/
theorem C3_hard_abort_behavior_witness :
    encounters_hard (default_config Platform.android) [m_hard] = true ∧
    (run_comprehensive (default_config Platform.android) [m_hard] []).verdict = none := by
  have hh : encounters_hard (default_config Platform.android) [m_hard] = true := by
    norm_num [encounters_hard, check_limits, cpu_branch_fails, m_hard, default_config,
      CheckOutcome.isHard]
  exact ⟨hh, (C3_hard_abort_behavior (default_config Platform.android) [m_hard] [] hh).2.2.2⟩

/-- C4 counterexample: a history consisting of the hard-violating sample
`m_hard` (no throttling, temperature 40) is reported PASSED, so a hard
violation does not force a FAILED verdict; and the empty history yields no
verdict at all instead of FAILED. -/
theorem C4_counterexample :
    (check_limits m_hard (default_config Platform.android)).isHard = true ∧
    report_verdict [m_hard] = some Verdict.passed ∧
    report_verdict ([] : List SystemMetrics) = none := by
  refine ⟨?_, ?_, rfl⟩
  · norm_num [check_limits, cpu_branch_fails, m_hard, default_config, CheckOutcome.isHard]
  · norm_num [report_verdict, healthy_sample, m_hard]

/-- C4 amended: the reporter's verdict ignores violations entirely — it is
PASSED exactly when the history is non-empty and every sample has
`thermal_throttling` false or `battery_temperature < 45`; an empty history
produces no verdict at all (the reporter returns early). -/
theorem C4_verdict_rule (ms : List SystemMetrics) :
    (report_verdict ms = none ↔ ms = []) ∧
    (report_verdict ms = some Verdict.passed ↔
      ms ≠ [] ∧ ∀ m ∈ ms, m.thermal_throttling = false ∨ m.battery_temperature < 45) := by
  cases ms with
  | nil => simp [report_verdict]
  | cons a l =>
    constructor
    · simp [report_verdict]
    · simp only [report_verdict, List.isEmpty_cons, Bool.false_eq_true, if_false,
        Option.some.injEq, ne_eq, reduceCtorEq, not_false_eq_true, true_and]
      constructor
      · intro h
        by_cases hall : (a :: l).all healthy_sample = true
        · simpa [healthy_sample, Bool.or_eq_true, Bool.not_eq_true',
            decide_eq_true_iff] using hall
        · simp [hall] at h
      · intro h
        have hall : (a :: l).all healthy_sample = true := by
          simpa [healthy_sample, Bool.or_eq_true, Bool.not_eq_true',
            decide_eq_true_iff] using h
        simp [hall]

/-- C5 counterexample: a `/proc/meminfo` content with a large `MemAvailable`
value — written plainly or with the leading `+` sign Rust's `u64` parse
accepts — makes the collector produce a sample with `memory_used` strictly
above `memory_total` on Android. -/
theorem C5_counterexample :
    (collect_system_metrics Platform.android "" bad_meminfo 50 35 false 0 0).memory_total
      < (collect_system_metrics Platform.android "" bad_meminfo 50 35 false 0 0).memory_used ∧
    (collect_system_metrics Platform.android "" plus_meminfo 50 35 false 0 0).memory_total
      < (collect_system_metrics Platform.android "" plus_meminfo 50 35 false 0 0).memory_used := by
  exact ⟨by decide, by decide⟩

/-- C5 amended: a collected sample satisfies `memory_used ≤ memory_total` on
iOS and on the Android fallback path, and on the Android meminfo-derived path
only when the parsed `MemAvailable` value is at most `4 * 1024 * 1024` kB;
arbitrary meminfo contents can violate the invariant. -/
theorem C5_memory_within_total (p : Platform) (ps info : String)
    (bl bt : ℚ) (thr : Bool) (up ts : ℕ)
    (h : (mem_available_kb info).getD 0 ≤ 4 * 1024 * 1024) :
    (collect_system_metrics p ps info bl bt thr up ts).memory_used
      ≤ (collect_system_metrics p ps info bl bt thr up ts).memory_total := by
  simp only [collect_system_metrics]
  cases p with
  | ios => simp [get_memory_used, get_memory_total]
  | android =>
    cases hk : mem_available_kb info with
    | none => simp [get_memory_used, get_memory_total, hk]
    | some kb =>
      have hkb : kb ≤ 4 * 1024 * 1024 := by simpa [hk] using h
      simp only [get_memory_used, get_memory_total, hk, U64_SIZE]
      calc kb * 1024 % 2 ^ 64 ≤ kb * 1024 := Nat.mod_le _ _
        _ ≤ 4 * 1024 * 1024 * 1024 := by
            calc kb * 1024 ≤ 4 * 1024 * 1024 * 1024 := by nlinarith
        _ ≤ 4 * 1024 * 1024 * 1024 := le_rfl

/-- Witness for C5's amended theorem at a modest meminfo content. -/
theorem C5_memory_within_total_witness :
    (mem_available_kb ok_meminfo).getD 0 ≤ 4 * 1024 * 1024 ∧
    (collect_system_metrics Platform.android "" ok_meminfo 50 35 false 0 0).memory_used
      ≤ (collect_system_metrics Platform.android "" ok_meminfo 50 35 false 0 0).memory_total := by
  exact ⟨by decide, C5_memory_within_total Platform.android "" ok_meminfo 50 35 false 0 0 (by decide)⟩

/-- C6 counterexample: with `max_threads = 3` and the five source workloads,
the spawn loops start `5 * (3 / 5) = 0` threads — not `max_threads`, and not
at least one per workload. -/
theorem C6_counterexample :
    (run_cpu_stress cfg_three []).threads_spawned ≠ cfg_three.max_threads ∧
    ¬ ∀ k ∈ thread_counts cfg_three.max_threads cpu_workload_count, 1 ≤ k := by
  constructor
  · norm_num [run_cpu_stress, encounters_hard, total_spawned, thread_counts,
      cpu_workload_count, cfg_three, default_config]
  · intro hall
    have h0 : (0 : ℕ) ∈ thread_counts cfg_three.max_threads cpu_workload_count := by
      norm_num [thread_counts, cpu_workload_count, cfg_three, default_config]
    exact absurd (hall 0 h0) (by norm_num)

/-- C6 amended: the spawn loops give each of the `n` workloads exactly
`max_threads / n` threads, ignoring any weight; the total is at most
`max_threads`, equals it exactly when `n` divides `max_threads`, and every
workload gets at least one thread only when `max_threads ≥ n`. -/
theorem C6_thread_distribution (mt n : ℕ) (hn : 0 < n) :
    total_spawned mt n ≤ mt ∧
    (total_spawned mt n = mt ↔ n ∣ mt) ∧
    (n ≤ mt → ∀ k ∈ thread_counts mt n, 1 ≤ k) := by
  have htot : total_spawned mt n = n * (mt / n) := by
    simp [total_spawned, thread_counts, List.sum_replicate, smul_eq_mul]
  refine ⟨?_, ⟨?_, ?_⟩, ?_⟩
  · rw [htot, Nat.mul_comm]
    exact Nat.div_mul_le_self mt n
  · intro h
    rw [htot] at h
    exact ⟨mt / n, h.symm⟩
  · intro hdvd
    rw [htot]
    exact Nat.mul_div_cancel' hdvd
  · intro hle k hk
    have hk' : k = mt / n := List.eq_of_mem_replicate (by simpa [thread_counts] using hk)
    rw [hk']
    exact (Nat.one_le_div_iff hn).mpr hle

/-- Witness for C6's amended theorem at the default Android `max_threads = 50`
and the five source workloads. -/
theorem C6_thread_distribution_witness :
    0 < 5 ∧ total_spawned 50 5 ≤ 50 := by
  exact ⟨by norm_num, (C6_thread_distribution 50 5 (by norm_num)).1⟩

/-- Helper: the comprehensive run either never writes the stop flag (abort
path) or stores `true` exactly once (normal completion). -/
theorem run_comprehensive_flag_writes (c : StressTestConfig)
    (samples hist : List SystemMetrics) :
    (run_comprehensive c samples hist).flag_writes = [] ∨
    (run_comprehensive c samples hist).flag_writes = [true] := by
  induction samples generalizing hist with
  | nil => right; rfl
  | cons m rest ih =>
    by_cases hm : (check_limits m c).isHard = true
    · left; simp [run_comprehensive, hm]
    · simpa [run_comprehensive, hm] using ih (hist ++ [m])

/-- C7: the shared stop flag starts `false`, and over any run it is written at
most once, the only written value being `true` — it is never reset to
`false`.  This holds for both the comprehensive run and the CPU stress run. -/
theorem C7_stop_flag_monotone (c : StressTestConfig) (samples hist : List SystemMetrics) :
    initial_stop_flag = false ∧
    (run_comprehensive c samples hist).flag_writes.length ≤ 1 ∧
    (∀ b ∈ (run_comprehensive c samples hist).flag_writes, b = true) ∧
    (run_cpu_stress c samples).flag_writes.length ≤ 1 ∧
    (∀ b ∈ (run_cpu_stress c samples).flag_writes, b = true) := by
  refine ⟨rfl, ?_, ?_, ?_, ?_⟩
  · rcases run_comprehensive_flag_writes c samples hist with h | h <;> simp [h]
  · rcases run_comprehensive_flag_writes c samples hist with h | h <;> simp [h]
  · unfold run_cpu_stress
    split <;> simp
  · unfold run_cpu_stress
    split <;> simp

/-- C8 counterexample: a monitor tick observing `open_files = 200` under the
default Android config (whose `max_open_files` is 200) fails the
`open_files < max_open_files` assert; the filesystem test panics and exits
without removing the scratch directory. -/
theorem C8_counterexample :
    fs_tick_ok (default_config Platform.android) (200, 1000) = false ∧
    (run_filesystem (default_config Platform.android) [(200, 1000)]).dir_removed = false := by
  constructor
  · norm_num [fs_tick_ok, default_config]
  · have h : fs_tick_ok (default_config Platform.android) (200, 1000) = false := by
      norm_num [fs_tick_ok, default_config]
    simp [run_filesystem, h]

/-- C8 amended: the scratch directory is removed exactly when every monitor
tick passes the open-files and disk-space asserts (normal completion); an
abort via a failed assert exits without the cleanup.  The cleanup call
discards errors, so performing it on an already-removed directory is a no-op. -/
theorem C8_cleanup_only_on_normal_exit (c : StressTestConfig) (ticks : List (ℕ × ℕ)) :
    ((run_filesystem c ticks).dir_removed = true ↔ ticks.all (fs_tick_ok c) = true) ∧
    (∀ b, remove_dir_all_ok (remove_dir_all_ok b) = remove_dir_all_ok b) := by
  refine ⟨?_, fun b => rfl⟩
  induction ticks with
  | nil => simp [run_filesystem]
  | cons t rest ih =>
    by_cases ht : fs_tick_ok c t = true
    · simpa [run_filesystem, ht] using ih
    · simp [run_filesystem, ht, Bool.eq_false_iff.mpr ht]

/-- C9 counterexample: with `max_threads = 0` (and an empty monitor history,
as with a zero test duration) the CPU stress run spawns no threads and
completes normally — no configuration error is raised. -/
theorem C9_counterexample :
    (run_cpu_stress cfg_zero_threads []).outcome = CpuOutcome.completed ∧
    CpuOutcome.completed ≠ CpuOutcome.configError ∧
    (run_cpu_stress cfg_zero_threads []).threads_spawned = 0 := by
  refine ⟨?_, by decide, ?_⟩
  · simp [run_cpu_stress, encounters_hard]
  · simp [run_cpu_stress, encounters_hard, total_spawned, thread_counts, cpu_workload_count,
      cfg_zero_threads, default_config]

/-- C9 amended: the source validates nothing: no run ever produces a
configuration error, and a zero `max_threads` silently yields a run with zero
spawned workload threads instead of failing fast. -/
theorem C9_no_config_validation (c : StressTestConfig) (samples : List SystemMetrics) :
    (run_cpu_stress c samples).outcome ≠ CpuOutcome.configError ∧
    (c.max_threads = 0 → (run_cpu_stress c samples).threads_spawned = 0) := by
  constructor
  · unfold run_cpu_stress
    split <;> simp
  · intro h0
    unfold run_cpu_stress
    split <;> simp [total_spawned, thread_counts, cpu_workload_count, h0]

/-- Witness for C9's amended theorem at the zero-thread config. -/
theorem C9_no_config_validation_witness :
    cfg_zero_threads.max_threads = 0 ∧
    (run_cpu_stress cfg_zero_threads []).threads_spawned = 0 := by
  have h0 : cfg_zero_threads.max_threads = 0 := by
    simp [cfg_zero_threads]
  exact ⟨h0, (C9_no_config_validation cfg_zero_threads []).2 h0⟩

/-- C10: the CPU reading is a platform constant independent of the
`/proc/stat` content (50 on Android, 45 on iOS), and for every sample built by
the metrics collector the failing condition of the CPU assert of
`check_limits` is false under the default configuration — that failure branch
is unreachable. -/
theorem C10_cpu_branch_unreachable (p : Platform) (s1 s2 meminfo : String)
    (bl bt : ℚ) (thr : Bool) (up ts : ℕ) :
    get_cpu_usage p s1 = get_cpu_usage p s2 ∧
    cpu_branch_fails (collect_system_metrics p s1 meminfo bl bt thr up ts)
      (default_config p) = false := by
  cases p <;>
    exact ⟨rfl, by norm_num [cpu_branch_fails, collect_system_metrics, get_cpu_usage,
      default_config]⟩
